import Mathlib

/-! Shallow embedding of the DHT11/DHT22 Mbed driver
(`NuerteyDHT11Device.h`, `main.cpp`).

Modelling conventions:
* C++ `float`/`double` arithmetic is modelled exactly over `ℚ`
  (the spec's conversion formulas are stated as exact).
* `time_t` seconds are modelled as `ℤ`; the microsecond-granularity
  line activity during one transaction is modelled as a trace
  `ℕ → ℕ` giving the logic level read from the pin at each
  microsecond tick, the tick counter starting at 0 at the moment the
  MCU releases the line to input mode (end of the start signal).
* `uint8_t` values are modelled as `ℕ` (all arithmetic in the source
  is done after integral promotion, with an explicit `&&& 0xFF`
  truncation in the checksum).
* `CalculateTemperature()` and `CalculateHumidity()` have empty
  bodies in the source (a non-void function that returns no value),
  so the values they produce are indeterminate; the model takes them
  as parameters (`UnspecCalc`) ranging over every possible resolution
  of that indeterminacy.
-/

namespace DHT11

/-- The source's `SensorStatus_t` enumeration, `NuerteyDHT11Device.h` lines 72-82. -/
inductive SensorStatus_t where
  | SUCCESS
  | ERROR_BUS_BUSY
  | ERROR_NOT_DETECTED
  | ERROR_BAD_START
  | ERROR_SYNC_TIMEOUT
  | ERROR_DATA_TIMEOUT
  | ERROR_BAD_CHECKSUM
  | ERROR_TOO_FAST_READS
deriving DecidableEq, Repr

/-- The source's `TemperatureScale_t` enumeration, lines 84-89. -/
inductive TemperatureScale_t where
  | CELCIUS
  | FARENHEIT
  | KELVIN
deriving DecidableEq, Repr

/-- Constant `MINIMUM_SAMPLING_PERIOD_SECONDS` (source line 110, the value 2;
a `double` in the source, but only ever compared against whole-second
differences of `time_t` values). -/
def MINIMUM_SAMPLING_PERIOD_SECONDS : ℤ := 2

/-- The instance state of `NuerteyDHT11Device<T>` (member fields,
source lines 148-153). Field names follow the source. -/
structure DeviceState where
  m_TheDataPinName : ℕ
  m_TheDataFrame : List ℕ
  m_TheLastReadTime : ℤ
  m_TheLastReadResult : SensorStatus_t
  m_TheLastTemperature : ℚ
  m_TheLastHumidity : ℚ
deriving DecidableEq

/-- The values of the member fields that the constructor (source lines
156-167) leaves uninitialized.  C++ gives them indeterminate values; the
model quantifies over every possible such value. -/
structure UninitValues where
  frame : List ℕ
  status : SensorStatus_t
  temperature : ℚ
  humidity : ℚ

/-- The constructor `NuerteyDHT11Device(PinName)` (source lines 156-167):
records the pin name and sets
`m_TheLastReadTime = time(NULL) - MINIMUM_SAMPLING_PERIOD_SECONDS`;
every other member is left with whatever indeterminate value it had
(`junk`). `now` is the value of `time(NULL)` at construction. -/
def NuerteyDHT11Device (thePinName : ℕ) (now : ℤ) (junk : UninitValues) : DeviceState :=
  { m_TheDataPinName := thePinName
    m_TheDataFrame := junk.frame
    m_TheLastReadTime := now - MINIMUM_SAMPLING_PERIOD_SECONDS
    m_TheLastReadResult := junk.status
    m_TheLastTemperature := junk.temperature
    m_TheLastHumidity := junk.humidity }

/-- One possible resolution of the empty-bodied
`CalculateTemperature()` / `CalculateHumidity()` (source lines 359-365):
both functions fall off the end of a non-void function, so the float
they "return" is indeterminate.  The model passes the two resulting
values (as functions of the captured frame, the most general reading)
as parameters. -/
structure UnspecCalc where
  CalculateTemperature : List ℕ → ℚ
  CalculateHumidity : List ℕ → ℚ

/-- The loop of `ExpectPulse` (source lines 321-341), fuel-indexed.
The source loops `while (level == theIO)`, i.e. while the pin still
reads `level`; at each pass it first re-reads the pin (exiting with
`SUCCESS` the moment the pin reads something other than `level`), then
checks `count > max_time` (timeout), then increments `count` and spins
`wait_us(1)`.  Here `fuel = max_time + 1 - count`, so `fuel = 0` holds
exactly when `count > max_time`; `t` is the current microsecond tick
(each recursive step is one `wait_us(1)`).  Returns the status together
with the tick at which the loop exited. -/
def expectPulseFuel (trace : ℕ → ℕ) (level : ℕ) (fuel t : ℕ) : SensorStatus_t × ℕ :=
  Nat.rec (motive := fun _ => ℕ → SensorStatus_t × ℕ)
    (fun s =>
      if trace s ≠ level then (SensorStatus_t.SUCCESS, s)
      else (SensorStatus_t.ERROR_TOO_FAST_READS, s))
    (fun _ ih s =>
      if trace s ≠ level then (SensorStatus_t.SUCCESS, s)
      else ih (s + 1))
    fuel t

lemma expectPulseFuel_zero (trace : ℕ → ℕ) (level t : ℕ) :
    expectPulseFuel trace level 0 t =
      if trace t ≠ level then (SensorStatus_t.SUCCESS, t)
      else (SensorStatus_t.ERROR_TOO_FAST_READS, t) := rfl

lemma expectPulseFuel_succ (trace : ℕ → ℕ) (level fuel t : ℕ) :
    expectPulseFuel trace level (fuel + 1) t =
      if trace t ≠ level then (SensorStatus_t.SUCCESS, t)
      else expectPulseFuel trace level fuel (t + 1) := rfl

/-- Function `ExpectPulse(theIO, level, max_time)` (source lines 321-341), entered
at microsecond tick `t` with the counter `count = 0`
(hence initial fuel `max_time + 1`). -/
def ExpectPulse (trace : ℕ → ℕ) (level maxTime t : ℕ) : SensorStatus_t × ℕ :=
  expectPulseFuel trace level (maxTime + 1) t

lemma expectPulseFuel_exit (trace : ℕ → ℕ) (level : ℕ) :
    ∀ (n fuel t : ℕ), n ≤ fuel →
      (∀ k, k < n → trace (t + k) = level) →
      trace (t + n) ≠ level →
      expectPulseFuel trace level fuel t = (SensorStatus_t.SUCCESS, t + n) := by
  intro n
  induction n with
  | zero =>
    intro fuel t _ _ hexit
    simp only [Nat.add_zero] at hexit
    rcases fuel with _ | f
    · rw [expectPulseFuel_zero]; simp [hexit]
    · rw [expectPulseFuel_succ]; simp [hexit]
  | succ m ih =>
    intro fuel t hle hstay hexit
    have h0 : trace (t + 0) = level := hstay 0 (Nat.succ_pos m)
    simp only [Nat.add_zero] at h0
    obtain ⟨fuel', rfl⟩ : ∃ f, fuel = f + 1 := by
      rcases fuel with _ | f
      · omega
      · exact ⟨f, rfl⟩
    rw [expectPulseFuel_succ]
    simp only [h0, ne_eq, not_true_eq_false, if_false]
    have hres := ih fuel' (t + 1) (by omega)
      (fun k hk => by
        have := hstay (k + 1) (by omega)
        simpa [Nat.add_assoc, Nat.add_comm 1 k] using this)
      (by
        have : t + 1 + m = t + (m + 1) := by omega
        rw [this]; exact hexit)
    rw [hres]
    congr 1
    omega

lemma expectPulseFuel_timeout (trace : ℕ → ℕ) (level : ℕ) :
    ∀ (fuel t : ℕ),
      (∀ k, k ≤ fuel → trace (t + k) = level) →
      expectPulseFuel trace level fuel t = (SensorStatus_t.ERROR_TOO_FAST_READS, t + fuel) := by
  intro fuel
  induction fuel with
  | zero =>
    intro t hstay
    have h0 : trace t = level := by simpa using hstay 0 (le_refl 0)
    rw [expectPulseFuel_zero]
    simp [h0]
  | succ f ih =>
    intro t hstay
    have h0 : trace t = level := by simpa using hstay 0 (by omega)
    rw [expectPulseFuel_succ]
    simp only [h0, ne_eq, not_true_eq_false, if_false]
    have hres := ih (t + 1) (fun k hk => by
      have := hstay (k + 1) (by omega)
      simpa [Nat.add_assoc, Nat.add_comm 1 k] using this)
    rw [hres]
    congr 1
    omega

/-- One iteration of the bit-capture loop body (`ReadData`, source lines
279-296): `ExpectPulse(pin, 0, 75)` (failure mapped to
`ERROR_DATA_TIMEOUT`), then `wait_us(40)` and a sample of the pin
(`bitValue[..] = theDigitalInOutPin`), then `ExpectPulse(pin, 1, 50)`
(failure again mapped to `ERROR_DATA_TIMEOUT`).  Returns the sampled
level together with the tick after the second pulse wait. -/
def captureBit (trace : ℕ → ℕ) (t : ℕ) : Except SensorStatus_t (ℕ × ℕ) :=
  match ExpectPulse trace 0 75 t with
  | (SensorStatus_t.SUCCESS, t1) =>
    let sampled := trace (t1 + 40)
    (match ExpectPulse trace 1 50 (t1 + 40) with
     | (SensorStatus_t.SUCCESS, t2) => Except.ok (sampled, t2)
     | _ => Except.error SensorStatus_t.ERROR_DATA_TIMEOUT)
  | _ => Except.error SensorStatus_t.ERROR_DATA_TIMEOUT

/-- The doubly nested capture loop (`ReadData`, source lines 277-297):
`SINGLE_BUS_DATA_FRAME_SIZE_BYTES * DHT11_MICROCONTROLLER_RESOLUTION_BITS
= 40` iterations of `captureBit`, collecting the sampled levels in
capture order (index `i*8 + j`). -/
def captureBits (trace : ℕ → ℕ) (n t : ℕ) : Except SensorStatus_t (List ℕ × ℕ) :=
  Nat.rec (motive := fun _ => ℕ → Except SensorStatus_t (List ℕ × ℕ))
    (fun s => Except.ok ([], s))
    (fun _ ih s =>
      match captureBit trace s with
      | Except.ok bt =>
        (match ih bt.2 with
         | Except.ok rest => Except.ok (bt.1 :: rest.1, rest.2)
         | Except.error e => Except.error e)
      | Except.error e => Except.error e)
    n t

lemma captureBits_zero (trace : ℕ → ℕ) (t : ℕ) :
    captureBits trace 0 t = Except.ok ([], t) := rfl

lemma captureBits_succ (trace : ℕ → ℕ) (n t : ℕ) :
    captureBits trace (n + 1) t =
      match captureBit trace t with
      | Except.ok bt =>
        (match captureBits trace n bt.2 with
         | Except.ok rest => Except.ok (bt.1 :: rest.1, rest.2)
         | Except.error e => Except.error e)
      | Except.error e => Except.error e := rfl

/-- The inner store loop for byte `i` (`ReadData`, source lines 301-312):
`b = 0; for j in 0..7: if (bitValue[i*8 + j] == 1) b |= (1 << (7-j));`. -/
def packByte (bitValue : List ℕ) (i : ℕ) : ℕ :=
  (List.range 8).foldl
    (fun b j => if bitValue.getD (i * 8 + j) 0 = 1 then b ||| (1 <<< (7 - j)) else b) 0

/-- The outer store loop (`ReadData`, source lines 301-312): the five
bytes `m_TheDataFrame[i] = b` for `i = 0..4`, in capture order. -/
def packFrame (bitValue : List ℕ) : List ℕ :=
  (List.range 5).map (packByte bitValue)

/-- Function `ValidateChecksum()` (source lines 343-357): starts from
`ERROR_BAD_CHECKSUM`; if
`m_TheDataFrame[4] == ((m_TheDataFrame[0] + m_TheDataFrame[1] +
m_TheDataFrame[2] + m_TheDataFrame[3]) & 0xFF)` it stores
`CalculateTemperature()` / `CalculateHumidity()` into the snapshot
fields and yields `SUCCESS`. -/
def ValidateChecksum (u : UnspecCalc) (s : DeviceState) : SensorStatus_t × DeviceState :=
  if s.m_TheDataFrame.getD 4 0 =
      (s.m_TheDataFrame.getD 0 0 + s.m_TheDataFrame.getD 1 0 +
       s.m_TheDataFrame.getD 2 0 + s.m_TheDataFrame.getD 3 0) &&& 0xFF
  then (SensorStatus_t.SUCCESS,
        { s with m_TheLastTemperature := u.CalculateTemperature s.m_TheDataFrame,
                 m_TheLastHumidity := u.CalculateHumidity s.m_TheDataFrame })
  else (SensorStatus_t.ERROR_BAD_CHECKSUM, s)

/-- The tail of a fully captured transaction (`ReadData`, source lines
300-318): store the packed bytes into `m_TheDataFrame`, run
`ValidateChecksum()`, and record the result into
`m_TheLastReadResult`. -/
def storeAndValidate (u : UnspecCalc) (s : DeviceState) (bitValue : List ℕ) :
    SensorStatus_t × DeviceState :=
  ((ValidateChecksum u { s with m_TheDataFrame := packFrame bitValue }).1,
   { (ValidateChecksum u { s with m_TheDataFrame := packFrame bitValue }).2 with
     m_TheLastReadResult :=
       (ValidateChecksum u { s with m_TheDataFrame := packFrame bitValue }).1 })

/-- The transaction state machine of `ReadData()` past the rate limiter
(source lines 188-318): zero-fill of `m_TheDataFrame`, the start signal
(pure line driving, no state change in the model), then the three
handshake `ExpectPulse` calls with their phase-specific failure
statuses, the 40-bit capture, the pack/store loops and the checksum.
Every failure path records its status in `m_TheLastReadResult`.  The
argument state already has `m_TheLastReadTime` updated. -/
def runTransaction (u : UnspecCalc) (s : DeviceState) (trace : ℕ → ℕ) :
    SensorStatus_t × DeviceState :=
  let s0 := { s with m_TheDataFrame := [0, 0, 0, 0, 0] }
  match ExpectPulse trace 1 40 0 with
  | (SensorStatus_t.SUCCESS, t1) =>
    (match ExpectPulse trace 0 100 t1 with
     | (SensorStatus_t.SUCCESS, t2) =>
       (match ExpectPulse trace 1 100 t2 with
        | (SensorStatus_t.SUCCESS, t3) =>
          (match captureBits trace 40 t3 with
           | Except.ok bt => storeAndValidate u s0 bt.1
           | Except.error e => (e, { s0 with m_TheLastReadResult := e }))
        | _ => (SensorStatus_t.ERROR_TOO_FAST_READS,
                { s0 with m_TheLastReadResult := SensorStatus_t.ERROR_TOO_FAST_READS }))
     | _ => (SensorStatus_t.ERROR_SYNC_TIMEOUT,
             { s0 with m_TheLastReadResult := SensorStatus_t.ERROR_SYNC_TIMEOUT }))
  | _ => (SensorStatus_t.ERROR_NOT_DETECTED,
          { s0 with m_TheLastReadResult := SensorStatus_t.ERROR_NOT_DETECTED })

/-- Function `ReadData()` (source lines 174-319).  `currentTime` is `time(NULL)`
at the call; `trace` is the line level observed at each microsecond tick
once the MCU releases the line to input mode.  If
`difftime(currentTime, m_TheLastReadTime) < MINIMUM_SAMPLING_PERIOD_SECONDS`
the call returns `m_TheLastReadResult` with the state untouched;
otherwise it stores `currentTime` into `m_TheLastReadTime` and runs the
transaction state machine. -/
def ReadData (u : UnspecCalc) (s : DeviceState) (currentTime : ℤ) (trace : ℕ → ℕ) :
    SensorStatus_t × DeviceState :=
  if currentTime - s.m_TheLastReadTime < MINIMUM_SAMPLING_PERIOD_SECONDS then
    (s.m_TheLastReadResult, s)
  else
    runTransaction u { s with m_TheLastReadTime := currentTime } trace

/-- Function `ConvertCelciusToFarenheit` (source lines 367-371): the body reads
`((celsius * 9/5) + 32)`; the source spells the parameter `celcius` and
the body `celsius`, the parameter being the only possible referent. -/
def ConvertCelciusToFarenheit (celcius : ℚ) : ℚ :=
  celcius * 9 / 5 + 32

/-- Function `ConvertCelciusToKelvin` (source lines 373-377): `(celsius + 273.15)`,
with the same parameter-spelling remark. -/
def ConvertCelciusToKelvin (celcius : ℚ) : ℚ :=
  celcius + 273.15

/-- Function `GetHumidity()` (source lines 379-383). -/
def GetHumidity (s : DeviceState) : ℚ :=
  s.m_TheLastHumidity

/-- Function `GetTemperature(Scale)` (source lines 385-404): Fahrenheit and Kelvin
via the conversion helpers, every other scale value (i.e. `CELCIUS`)
returning `m_TheLastTemperature` unchanged. -/
def GetTemperature (s : DeviceState) (Scale : TemperatureScale_t) : ℚ :=
  match Scale with
  | TemperatureScale_t.FARENHEIT => ConvertCelciusToFarenheit s.m_TheLastTemperature
  | TemperatureScale_t.KELVIN => ConvertCelciusToKelvin s.m_TheLastTemperature
  | TemperatureScale_t.CELCIUS => s.m_TheLastTemperature

/-! Concrete sample inputs shared by the closed theorems and witnesses. -/

/-- The 40 captured bit values whose packed frame is
`[0x32, 0x00, 0x18, 0x00, 0x4A]` (humidity 50 %, temperature 24 °C,
valid checksum), most-significant bit of each byte first. -/
def bits50 : List ℕ :=
  [0, 0, 1, 1, 0, 0, 1, 0,
   0, 0, 0, 0, 0, 0, 0, 0,
   0, 0, 0, 1, 1, 0, 0, 0,
   0, 0, 0, 0, 0, 0, 0, 0,
   0, 1, 0, 0, 1, 0, 1, 0]

/-- A pin trace that drives one complete transaction delivering exactly
the bits of `bits50`: a three-tick handshake (low, high, low), then one
42-tick slot per bit whose tick 0 is high (ending the inter-bit low
phase), whose tick 40 carries the bit value (the sample point after
`wait_us(40)`), and whose tick 41 is low. -/
def trace50 : ℕ → ℕ := fun t =>
  if t = 0 then 0
  else if t = 1 then 1
  else if t = 2 then 0
  else
    let r := (t - 3) % 42
    let k := (t - 3) / 42
    if r = 0 then 1
    else if r = 40 then bits50.getD k 0
    else 0

/-- The resolution of the empty-bodied calculators in which both
indeterminate results are 0. -/
def stubCalcZero : UnspecCalc := ⟨fun _ => 0, fun _ => 0⟩

/-- Sample indeterminate initial field values. -/
def sampleJunk : UninitValues := ⟨[7, 7, 7, 7, 7], SensorStatus_t.ERROR_BUS_BUSY, 3, 4⟩

/-- A device constructed at `time(NULL) = 8` on pin 5, with
`sampleJunk` as its indeterminate initial fields
(so `m_TheLastReadTime = 6`). -/
def sampleDevice : DeviceState := NuerteyDHT11Device 5 8 sampleJunk

/-- A second sample device whose indeterminate `m_TheLastReadResult`
happens to be `SUCCESS`. -/
def sampleDevice2 : DeviceState :=
  NuerteyDHT11Device 5 8 ⟨[7, 7, 7, 7, 7], SensorStatus_t.SUCCESS, 3, 4⟩

/-- A pin trace stuck at logic level 1. -/
def stuckHighTrace : ℕ → ℕ := fun _ => 1

/-! Claim C2 (corrected). -/

/-- Claim C2, counterexample.  The claim as stated says `ExpectPulse`
returns success as soon as the pin reads the target logic level.  With
the pin reading the target level 1 at the very first poll (and at every
poll), `ExpectPulse(pin, 1, 3)` does not return success at all: it runs
to the timeout, because the source loops `while (level == theIO)` and
so waits for the given level to *disappear*.  Dually, with the pin
never reading the target level 1, it returns success immediately. -/
theorem expectPulse_target_level_cex :
    stuckHighTrace 0 = 1 ∧
    ExpectPulse stuckHighTrace 1 3 0 ≠ (SensorStatus_t.SUCCESS, 0) ∧
    ExpectPulse stuckHighTrace 1 3 0 = (SensorStatus_t.ERROR_TOO_FAST_READS, 4) ∧
    (fun _ : ℕ => 0) 0 ≠ 1 ∧
    ExpectPulse (fun _ => 0) 1 3 0 = (SensorStatus_t.SUCCESS, 0) := by
  refine ⟨rfl, by decide, by decide, by decide, by decide⟩

/-- Claim C2, amended.  For every pin trace, level argument, timeout
bound and entry tick: `ExpectPulse` blocks while the pin reads the
*given* level and returns success at the first poll at which the pin
reads any other level (the argument names the level to be waited out,
not the level to wait for); it returns the timeout failure
`ERROR_TOO_FAST_READS` once the elapsed poll count exceeds the
caller-supplied bound (after `maxTime + 1` one-microsecond steps). -/
theorem expectPulse_waits_out_level :
    ∀ (trace : ℕ → ℕ) (level maxTime t0 : ℕ),
      (∀ n, n ≤ maxTime + 1 → (∀ k, k < n → trace (t0 + k) = level) →
        trace (t0 + n) ≠ level →
        ExpectPulse trace level maxTime t0 = (SensorStatus_t.SUCCESS, t0 + n)) ∧
      ((∀ k, k ≤ maxTime + 1 → trace (t0 + k) = level) →
        ExpectPulse trace level maxTime t0 =
          (SensorStatus_t.ERROR_TOO_FAST_READS, t0 + (maxTime + 1))) := by
  intro trace level maxTime t0
  constructor
  · intro n hn hstay hexit
    exact expectPulseFuel_exit trace level n (maxTime + 1) t0 hn hstay hexit
  · intro hstay
    exact expectPulseFuel_timeout trace level (maxTime + 1) t0 hstay

/-- Claim C2, witness: a pin that reads level 1 for two ticks and then
level 0; `ExpectPulse` with argument 1 and bound 5 succeeds exactly at
tick 2. -/
theorem expectPulse_waits_out_level_witness :
    ExpectPulse (fun t => if t < 2 then 1 else 0) 1 5 0 = (SensorStatus_t.SUCCESS, 0 + 2) :=
  (expectPulse_waits_out_level (fun t => if t < 2 then 1 else 0) 1 5 0).1 2
    (by decide) (by decide) (by decide)

/-! Claim C8 (confirmed). -/

/-- Claim C8: for every timeout bound `maxTime`, an `ExpectPulse` call
on a pin whose observed level never changes (stays at the argument
level, so no exit condition ever arrives) terminates — `ExpectPulse` is
a total function — and returns the timeout failure after exactly
`maxTime + 1` one-microsecond poll steps (the returned tick is
`t0 + (maxTime + 1)`), hence after at most `maxTime + 1` poll
iterations; it never loops indefinitely. -/
theorem expectPulse_const_level_timeout :
    ∀ (trace : ℕ → ℕ) (level maxTime t0 : ℕ),
      (∀ t, trace t = level) →
      ExpectPulse trace level maxTime t0 =
        (SensorStatus_t.ERROR_TOO_FAST_READS, t0 + (maxTime + 1)) := by
  intro trace level maxTime t0 hconst
  exact expectPulseFuel_timeout trace level (maxTime + 1) t0 (fun k _ => hconst (t0 + k))

/-- Claim C8, witness: a pin stuck at level 0, bound 3: timeout is
returned after exactly 4 poll steps. -/
theorem expectPulse_const_level_timeout_witness :
    ExpectPulse (fun _ => 0) 0 3 0 = (SensorStatus_t.ERROR_TOO_FAST_READS, 0 + (3 + 1)) :=
  expectPulse_const_level_timeout (fun _ => 0) 0 3 0 (fun _ => rfl)

/-! Claim C3 (confirmed). -/

lemma getD5_0 (b0 b1 b2 b3 b4 d : ℕ) : ([b0, b1, b2, b3, b4] : List ℕ).getD 0 d = b0 := rfl
lemma getD5_1 (b0 b1 b2 b3 b4 d : ℕ) : ([b0, b1, b2, b3, b4] : List ℕ).getD 1 d = b1 := rfl
lemma getD5_2 (b0 b1 b2 b3 b4 d : ℕ) : ([b0, b1, b2, b3, b4] : List ℕ).getD 2 d = b2 := rfl
lemma getD5_3 (b0 b1 b2 b3 b4 d : ℕ) : ([b0, b1, b2, b3, b4] : List ℕ).getD 3 d = b3 := rfl
lemma getD5_4 (b0 b1 b2 b3 b4 d : ℕ) : ([b0, b1, b2, b3, b4] : List ℕ).getD 4 d = b4 := rfl

/-- Claim C3: for every 4-byte payload `[b0, b1, b2, b3]`, checksum
validation of the 5-byte frame succeeds exactly when the fifth byte
equals the 8-bit truncated sum `(b0 + b1 + b2 + b3) % 256`, and for any
other fifth byte it reports `ERROR_BAD_CHECKSUM`. -/
theorem validateChecksum_iff :
    ∀ (u : UnspecCalc) (s : DeviceState) (b0 b1 b2 b3 b4 : ℕ),
      b0 < 256 → b1 < 256 → b2 < 256 → b3 < 256 → b4 < 256 →
      s.m_TheDataFrame = [b0, b1, b2, b3, b4] →
      ((ValidateChecksum u s).1 = SensorStatus_t.SUCCESS ↔
        b4 = (b0 + b1 + b2 + b3) % 256) ∧
      (b4 ≠ (b0 + b1 + b2 + b3) % 256 →
        (ValidateChecksum u s).1 = SensorStatus_t.ERROR_BAD_CHECKSUM) := by
  intro u s b0 b1 b2 b3 b4 _ _ _ _ _ hframe
  have hmask : (b0 + b1 + b2 + b3) &&& 0xFF = (b0 + b1 + b2 + b3) % 256 := by
    have h := Nat.and_pow_two_sub_one_eq_mod (b0 + b1 + b2 + b3) 8
    norm_num at h
    exact h
  unfold ValidateChecksum
  rw [hframe, getD5_0, getD5_1, getD5_2, getD5_3, getD5_4, hmask]
  by_cases hc : b4 = (b0 + b1 + b2 + b3) % 256 <;> simp [hc]

/-- Claim C3, witness: payload `[5, 6, 7, 8]` with correct checksum 26
validates; with checksum 27 it reports `ERROR_BAD_CHECKSUM`. -/
theorem validateChecksum_iff_witness :
    (ValidateChecksum stubCalcZero ⟨0, [5, 6, 7, 8, 26], 0, SensorStatus_t.SUCCESS, 0, 0⟩).1 =
      SensorStatus_t.SUCCESS ∧
    (ValidateChecksum stubCalcZero ⟨0, [5, 6, 7, 8, 27], 0, SensorStatus_t.SUCCESS, 0, 0⟩).1 =
      SensorStatus_t.ERROR_BAD_CHECKSUM := by
  constructor
  · exact (validateChecksum_iff stubCalcZero _ 5 6 7 8 26 (by decide) (by decide) (by decide)
      (by decide) (by decide) rfl).1.mpr (by decide)
  · exact (validateChecksum_iff stubCalcZero _ 5 6 7 8 27 (by decide) (by decide) (by decide)
      (by decide) (by decide) rfl).2 (by decide)

/-! Claim C4 (confirmed). -/

/-- Claim C4: a `ReadData()` call occurring strictly less than the
minimum sampling period (2 s) after the previous one returns
`m_TheLastReadResult` and leaves the entire instance state unchanged;
the returned pair does not depend on the pin trace, so no bus
transaction is performed and the transaction state machine is never
entered. -/
theorem readData_rate_limited_cached :
    ∀ (u : UnspecCalc) (s : DeviceState) (currentTime : ℤ) (trace : ℕ → ℕ),
      currentTime - s.m_TheLastReadTime < MINIMUM_SAMPLING_PERIOD_SECONDS →
      ReadData u s currentTime trace = (s.m_TheLastReadResult, s) := by
  intro u s ct trace h
  unfold ReadData
  rw [if_pos h]

/-- Claim C4, witness: the sample device (last read at 6) polled again
at 7 returns the cached status with the state untouched. -/
theorem readData_rate_limited_cached_witness :
    ReadData stubCalcZero sampleDevice 7 stuckHighTrace =
      (sampleDevice.m_TheLastReadResult, sampleDevice) :=
  readData_rate_limited_cached stubCalcZero sampleDevice 7 stuckHighTrace (by decide)

/-! Claim C6 (confirmed). -/

/-- Claim C6: for every cached Celsius temperature,
`GetTemperature(FARENHEIT)` is exactly `c * 9 / 5 + 32`,
`GetTemperature(KELVIN)` is exactly `c + 273.15`, and
`GetTemperature(CELCIUS)` returns the cached value unchanged (exact
rational arithmetic, the source formulas verbatim). -/
theorem getTemperature_conversion_exact :
    ∀ s : DeviceState,
      GetTemperature s TemperatureScale_t.FARENHEIT =
        s.m_TheLastTemperature * 9 / 5 + 32 ∧
      GetTemperature s TemperatureScale_t.KELVIN =
        s.m_TheLastTemperature + 273.15 ∧
      GetTemperature s TemperatureScale_t.CELCIUS = s.m_TheLastTemperature :=
  fun _ => ⟨rfl, rfl, rfl⟩

/-! Claim C10 (confirmed). -/

/-- Claim C10: the constructor records only the pin name and the
rate-limiter baseline `m_TheLastReadTime = now - 2`; `m_TheDataFrame`,
`m_TheLastReadResult`, `m_TheLastTemperature` and `m_TheLastHumidity`
keep whatever indeterminate values (`junk`) the members started with,
and `GetHumidity` / `GetTemperature` before a first complete read
return exactly those indeterminate values. -/
theorem constructor_leaves_snapshot_uninitialized :
    ∀ (thePinName : ℕ) (now : ℤ) (junk : UninitValues),
      (NuerteyDHT11Device thePinName now junk).m_TheDataPinName = thePinName ∧
      (NuerteyDHT11Device thePinName now junk).m_TheLastReadTime =
        now - MINIMUM_SAMPLING_PERIOD_SECONDS ∧
      (NuerteyDHT11Device thePinName now junk).m_TheDataFrame = junk.frame ∧
      (NuerteyDHT11Device thePinName now junk).m_TheLastReadResult = junk.status ∧
      (NuerteyDHT11Device thePinName now junk).m_TheLastTemperature = junk.temperature ∧
      (NuerteyDHT11Device thePinName now junk).m_TheLastHumidity = junk.humidity ∧
      GetHumidity (NuerteyDHT11Device thePinName now junk) = junk.humidity ∧
      GetTemperature (NuerteyDHT11Device thePinName now junk) TemperatureScale_t.CELCIUS =
        junk.temperature :=
  fun _ _ _ => ⟨rfl, rfl, rfl, rfl, rfl, rfl, rfl, rfl⟩

/-! Claim C7 (confirmed). -/

lemma foldl_or_testBit (C : ℕ → Prop) [DecidablePred C] :
    ∀ (l : List ℕ) (b m : ℕ),
      ((l.foldl (fun acc j => if C j then acc ||| (1 <<< (7 - j)) else acc) b).testBit m) =
      (b.testBit m || l.any fun j => decide (C j) && decide (7 - j = m)) := by
  intro l
  induction l with
  | nil => intro b m; simp
  | cons j l ih =>
    intro b m
    rw [List.foldl_cons, ih, List.any_cons]
    by_cases hC : C j
    · rw [if_pos hC, Nat.testBit_or, Nat.one_shiftLeft, Nat.testBit_two_pow]
      simp [hC, Bool.or_assoc]
    · rw [if_neg hC]
      simp [hC]

lemma packByte_testBit (bitValue : List ℕ) (i m : ℕ) :
    (packByte bitValue i).testBit m =
      (List.range 8).any fun j =>
        decide (bitValue.getD (i * 8 + j) 0 = 1) && decide (7 - j = m) := by
  unfold packByte
  rw [foldl_or_testBit (fun j => bitValue.getD (i * 8 + j) 0 = 1)]
  simp

lemma rangeEight : List.range 8 = [0, 1, 2, 3, 4, 5, 6, 7] := rfl

/-- Claim C7: for every captured bit sequence, the store loop produces
exactly 5 bytes in capture order, and bit position `7 - j` of byte `i`
(`0 ≤ i < 5`, `0 ≤ j < 8`) holds exactly the value of captured bit
`i*8 + j`: most-significant bit first within each byte. -/
theorem packFrame_msb_first :
    ∀ (bitValue : List ℕ) (i j : ℕ), i < 5 → j < 8 →
      (packFrame bitValue).length = 5 ∧
      ((packFrame bitValue).getD i 0).testBit (7 - j) =
        decide (bitValue.getD (i * 8 + j) 0 = 1) := by
  intro bitValue i j hi hj
  refine ⟨by simp [packFrame], ?_⟩
  have hip : (packFrame bitValue).getD i 0 = packByte bitValue i := by
    interval_cases i <;> rfl
  rw [hip, packByte_testBit, rangeEight]
  interval_cases j <;> simp

/-- Claim C7, witness: for the sample bit sequence `bits50`, byte 0 is
one of 5 bytes and its bit `7 - 2 = 5` is captured bit `0*8 + 2`. -/
theorem packFrame_msb_first_witness :
    (packFrame bits50).length = 5 ∧
    ((packFrame bits50).getD 0 0).testBit (7 - 2) =
      decide (bits50.getD (0 * 8 + 2) 0 = 1) :=
  packFrame_msb_first bits50 0 2 (by decide) (by decide)

/-! Shared facts about the transaction state machine. -/

lemma captureBit_error (trace : ℕ → ℕ) (t : ℕ) :
    ∀ e, captureBit trace t = Except.error e → e = SensorStatus_t.ERROR_DATA_TIMEOUT := by
  intro e h
  unfold captureBit at h
  split at h
  · split at h
    · cases h
    · exact (Except.error.inj h).symm
  · exact (Except.error.inj h).symm

lemma captureBits_error (trace : ℕ → ℕ) :
    ∀ (n t : ℕ) (e : SensorStatus_t),
      captureBits trace n t = Except.error e → e = SensorStatus_t.ERROR_DATA_TIMEOUT := by
  intro n
  induction n with
  | zero =>
    intro t e h
    rw [captureBits_zero] at h
    cases h
  | succ m ih =>
    intro t e h
    rw [captureBits_succ] at h
    rcases hcb : captureBit trace t with e1 | bt
    · rw [hcb] at h
      simp only [] at h
      cases h
      exact captureBit_error trace t _ hcb
    · rw [hcb] at h
      simp only [] at h
      rcases hrest : captureBits trace m bt.2 with e2 | rest
      · rw [hrest] at h
        simp only [] at h
        cases h
        exact ih bt.2 _ hrest
      · rw [hrest] at h
        simp only [] at h
        cases h

lemma validateChecksum_cases (u : UnspecCalc) (s : DeviceState) :
    ((ValidateChecksum u s).1 = SensorStatus_t.SUCCESS ∨
      (ValidateChecksum u s).1 = SensorStatus_t.ERROR_BAD_CHECKSUM) ∧
    (ValidateChecksum u s).2.m_TheLastReadTime = s.m_TheLastReadTime ∧
    ((ValidateChecksum u s).1 ≠ SensorStatus_t.SUCCESS → (ValidateChecksum u s).2 = s) := by
  unfold ValidateChecksum
  split
  · exact ⟨Or.inl rfl, rfl, fun h => absurd rfl h⟩
  · exact ⟨Or.inr rfl, rfl, fun _ => rfl⟩

lemma storeAndValidate_spec (u : UnspecCalc) (s : DeviceState) (bitValue : List ℕ) :
    (storeAndValidate u s bitValue).2.m_TheLastReadResult = (storeAndValidate u s bitValue).1 ∧
    (storeAndValidate u s bitValue).2.m_TheLastReadTime = s.m_TheLastReadTime ∧
    ((storeAndValidate u s bitValue).1 = SensorStatus_t.SUCCESS ∨
      (storeAndValidate u s bitValue).1 = SensorStatus_t.ERROR_BAD_CHECKSUM) ∧
    ((storeAndValidate u s bitValue).1 ≠ SensorStatus_t.SUCCESS →
      (storeAndValidate u s bitValue).2.m_TheLastTemperature = s.m_TheLastTemperature ∧
      (storeAndValidate u s bitValue).2.m_TheLastHumidity = s.m_TheLastHumidity) := by
  obtain ⟨h1, h2, h3⟩ :=
    validateChecksum_cases u { s with m_TheDataFrame := packFrame bitValue }
  refine ⟨rfl, h2, h1, fun h => ?_⟩
  have hid := h3 h
  constructor
  · show (ValidateChecksum u { s with m_TheDataFrame := packFrame bitValue }).2.m_TheLastTemperature
        = s.m_TheLastTemperature
    rw [hid]
  · show (ValidateChecksum u { s with m_TheDataFrame := packFrame bitValue }).2.m_TheLastHumidity
        = s.m_TheLastHumidity
    rw [hid]

lemma runTransaction_spec (u : UnspecCalc) (s : DeviceState) (trace : ℕ → ℕ) :
    (runTransaction u s trace).2.m_TheLastReadResult = (runTransaction u s trace).1 ∧
    (runTransaction u s trace).2.m_TheLastReadTime = s.m_TheLastReadTime ∧
    (runTransaction u s trace).1 ≠ SensorStatus_t.ERROR_BUS_BUSY ∧
    (runTransaction u s trace).1 ≠ SensorStatus_t.ERROR_BAD_START ∧
    ((runTransaction u s trace).1 ≠ SensorStatus_t.SUCCESS →
      (runTransaction u s trace).2.m_TheLastTemperature = s.m_TheLastTemperature ∧
      (runTransaction u s trace).2.m_TheLastHumidity = s.m_TheLastHumidity) := by
  unfold runTransaction
  split
  · split
    · split
      · split
        · rename_i bt heq
          obtain ⟨h1, h2, h3, h4⟩ :=
            storeAndValidate_spec u { s with m_TheDataFrame := [0, 0, 0, 0, 0] } bt.1
          refine ⟨h1, h2, ?_, ?_, h4⟩
          · rcases h3 with h | h <;> rw [h] <;> decide
          · rcases h3 with h | h <;> rw [h] <;> decide
        · rename_i e heq
          have he := captureBits_error trace 40 _ e heq
          subst he
          refine ⟨rfl, rfl, ?_, ?_, fun _ => ⟨rfl, rfl⟩⟩ <;> exact fun h => nomatch h
      · refine ⟨rfl, rfl, ?_, ?_, fun _ => ⟨rfl, rfl⟩⟩ <;> exact fun h => nomatch h
    · refine ⟨rfl, rfl, ?_, ?_, fun _ => ⟨rfl, rfl⟩⟩ <;> exact fun h => nomatch h
  · refine ⟨rfl, rfl, ?_, ?_, fun _ => ⟨rfl, rfl⟩⟩ <;> exact fun h => nomatch h

/-! Claim C5 (confirmed). -/

/-- Claim C5: every `ReadData()` call that proceeds past the rate
limiter and ends in a failure status leaves the cached numeric snapshot
(`m_TheLastTemperature`, `m_TheLastHumidity`) exactly as it was, while
`m_TheLastReadResult` is set to the returned status and
`m_TheLastReadTime` to the call time. -/
theorem readData_failure_preserves_snapshot :
    ∀ (u : UnspecCalc) (s : DeviceState) (currentTime : ℤ) (trace : ℕ → ℕ),
      ¬ (currentTime - s.m_TheLastReadTime < MINIMUM_SAMPLING_PERIOD_SECONDS) →
      (ReadData u s currentTime trace).1 ≠ SensorStatus_t.SUCCESS →
      (ReadData u s currentTime trace).2.m_TheLastTemperature = s.m_TheLastTemperature ∧
      (ReadData u s currentTime trace).2.m_TheLastHumidity = s.m_TheLastHumidity ∧
      (ReadData u s currentTime trace).2.m_TheLastReadResult =
        (ReadData u s currentTime trace).1 ∧
      (ReadData u s currentTime trace).2.m_TheLastReadTime = currentTime := by
  intro u s ct trace hlim hfail
  have hrd : ReadData u s ct trace =
      runTransaction u { s with m_TheLastReadTime := ct } trace := by
    unfold ReadData
    rw [if_neg hlim]
  rw [hrd] at hfail ⊢
  obtain ⟨h1, h2, _, _, h5⟩ := runTransaction_spec u { s with m_TheLastReadTime := ct } trace
  obtain ⟨ht, hh⟩ := h5 hfail
  exact ⟨ht, hh, h1, h2⟩

/-- Claim C5, witness: with the pin stuck high the transaction fails
with `ERROR_NOT_DETECTED`; the numeric snapshot of the sample device is
preserved while status and read time are updated. -/
theorem readData_failure_preserves_snapshot_witness :
    (ReadData stubCalcZero sampleDevice 10 stuckHighTrace).2.m_TheLastTemperature =
      sampleDevice.m_TheLastTemperature ∧
    (ReadData stubCalcZero sampleDevice 10 stuckHighTrace).2.m_TheLastHumidity =
      sampleDevice.m_TheLastHumidity ∧
    (ReadData stubCalcZero sampleDevice 10 stuckHighTrace).2.m_TheLastReadResult =
      (ReadData stubCalcZero sampleDevice 10 stuckHighTrace).1 ∧
    (ReadData stubCalcZero sampleDevice 10 stuckHighTrace).2.m_TheLastReadTime = 10 :=
  readData_failure_preserves_snapshot stubCalcZero sampleDevice 10 stuckHighTrace
    (by decide) (by decide)

/-! Claim C9 (confirmed). -/

/-- Claim C9: `ERROR_BUS_BUSY` and `ERROR_BAD_START` are unreachable as
results of the decode algorithm: whenever a `ReadData()` call enters the
transaction state machine its result is neither of the two, and for
every instance state whose cached status is not one of the two (the
rate-limited branch merely replays the cached status without entering
the decode), neither the returned status nor the newly cached status is
ever `ERROR_BUS_BUSY` or `ERROR_BAD_START`. -/
theorem readData_no_busBusy_no_badStart :
    ∀ (u : UnspecCalc) (s : DeviceState) (currentTime : ℤ) (trace : ℕ → ℕ),
      (¬ (currentTime - s.m_TheLastReadTime < MINIMUM_SAMPLING_PERIOD_SECONDS) →
        (ReadData u s currentTime trace).1 ≠ SensorStatus_t.ERROR_BUS_BUSY ∧
        (ReadData u s currentTime trace).1 ≠ SensorStatus_t.ERROR_BAD_START) ∧
      (s.m_TheLastReadResult ≠ SensorStatus_t.ERROR_BUS_BUSY →
        s.m_TheLastReadResult ≠ SensorStatus_t.ERROR_BAD_START →
        (ReadData u s currentTime trace).1 ≠ SensorStatus_t.ERROR_BUS_BUSY ∧
        (ReadData u s currentTime trace).1 ≠ SensorStatus_t.ERROR_BAD_START ∧
        (ReadData u s currentTime trace).2.m_TheLastReadResult ≠
          SensorStatus_t.ERROR_BUS_BUSY ∧
        (ReadData u s currentTime trace).2.m_TheLastReadResult ≠
          SensorStatus_t.ERROR_BAD_START) := by
  intro u s ct trace
  by_cases hlim : ct - s.m_TheLastReadTime < MINIMUM_SAMPLING_PERIOD_SECONDS
  · have hrd : ReadData u s ct trace = (s.m_TheLastReadResult, s) := by
      unfold ReadData
      rw [if_pos hlim]
    rw [hrd]
    exact ⟨fun h => absurd hlim h, fun hb hs => ⟨hb, hs, hb, hs⟩⟩
  · have hrd : ReadData u s ct trace =
        runTransaction u { s with m_TheLastReadTime := ct } trace := by
      unfold ReadData
      rw [if_neg hlim]
    rw [hrd]
    obtain ⟨h1, _, h3, h4, _⟩ := runTransaction_spec u { s with m_TheLastReadTime := ct } trace
    refine ⟨fun _ => ⟨h3, h4⟩, fun _ _ => ⟨h3, h4, ?_, ?_⟩⟩
    · rw [h1]; exact h3
    · rw [h1]; exact h4

/-- Claim C9, witness: on a device whose cached status is `SUCCESS`,
with the pin stuck high (transaction fails as `ERROR_NOT_DETECTED`),
none of the returned or cached statuses is `ERROR_BUS_BUSY` or
`ERROR_BAD_START`. -/
theorem readData_no_busBusy_no_badStart_witness :
    (ReadData stubCalcZero sampleDevice2 10 stuckHighTrace).1 ≠
      SensorStatus_t.ERROR_BUS_BUSY ∧
    (ReadData stubCalcZero sampleDevice2 10 stuckHighTrace).1 ≠
      SensorStatus_t.ERROR_BAD_START ∧
    (ReadData stubCalcZero sampleDevice2 10 stuckHighTrace).2.m_TheLastReadResult ≠
      SensorStatus_t.ERROR_BUS_BUSY ∧
    (ReadData stubCalcZero sampleDevice2 10 stuckHighTrace).2.m_TheLastReadResult ≠
      SensorStatus_t.ERROR_BAD_START :=
  (readData_no_busBusy_no_badStart stubCalcZero sampleDevice2 10 stuckHighTrace).2
    (by decide) (by decide)

/-! Claim C1 (code bug). -/

/-- Claim C1, evaluation of the code at the failing input.  `trace50`
drives a complete transaction that captures exactly the raw frame
`[0x32, 0x00, 0x18, 0x00, 0x4A]` (humidity 50 %, temperature 24 °C,
valid checksum), so `ReadData()` returns `SUCCESS` with that frame
stored — the first part of the claim holds.  But because
`CalculateTemperature()` and `CalculateHumidity()` have empty bodies,
the snapshot receives an indeterminate value: under the admissible
resolution `stubCalcZero` (both indeterminate results 0) the accessors
return 0 °C / 0 % / 32 °F / 273.15 K instead of the claimed
24 / 50 / 75.2 / 297.15 — the numeric half of the claim fails on the
code as written. -/
theorem readData_frame50_stub_divergence :
    (ReadData stubCalcZero sampleDevice 10 trace50).1 = SensorStatus_t.SUCCESS ∧
    (ReadData stubCalcZero sampleDevice 10 trace50).2.m_TheDataFrame =
      [0x32, 0x00, 0x18, 0x00, 0x4A] ∧
    GetHumidity (ReadData stubCalcZero sampleDevice 10 trace50).2 = 0 ∧ (0 : ℚ) ≠ 50 ∧
    GetTemperature (ReadData stubCalcZero sampleDevice 10 trace50).2
      TemperatureScale_t.CELCIUS = 0 ∧ (0 : ℚ) ≠ 24 ∧
    GetTemperature (ReadData stubCalcZero sampleDevice 10 trace50).2
      TemperatureScale_t.FARENHEIT = 32 ∧ (32 : ℚ) ≠ 75.2 ∧
    GetTemperature (ReadData stubCalcZero sampleDevice 10 trace50).2
      TemperatureScale_t.KELVIN = 273.15 ∧ (273.15 : ℚ) ≠ 297.15 := by
  have htemp : (ReadData stubCalcZero sampleDevice 10 trace50).2.m_TheLastTemperature = 0 := by
    decide
  refine ⟨by decide, by decide, by decide, by norm_num, by decide, by norm_num,
    ?_, by norm_num, ?_, by norm_num⟩
  · show ConvertCelciusToFarenheit
      (ReadData stubCalcZero sampleDevice 10 trace50).2.m_TheLastTemperature = 32
    rw [htemp]
    unfold ConvertCelciusToFarenheit
    norm_num
  · show ConvertCelciusToKelvin
      (ReadData stubCalcZero sampleDevice 10 trace50).2.m_TheLastTemperature = 273.15
    rw [htemp]
    unfold ConvertCelciusToKelvin
    norm_num

end DHT11
